import Mathlib

/-!
Verification of the call32 repository's render-target lifecycle state machine
(src/d2d/src/target.rs) and window-handle bridge (src/win32/src/window/inner.rs).

The Rust code is shallowly embedded: opaque OS objects (the Direct2D factory,
device render targets, brush device handles) are modelled by numeric
identifiers; fallible platform calls are modelled by oracle parameters passed
in by the environment (an Option value: some v is a successful call returning
v, none is a failed call); Rust panics, expect failures and assertion failures
are modelled as the error branch of Except.
-/

/-- Panic outcomes. Each constructor corresponds to one panic, expect or
unwrap site in the source; reaching the error branch models process abort. -/
inductive Panic
  /-- Message "Render target state poisoned" (target.rs lines 198, 208, 233, 244). -/
  | poisoned
  /-- Message "Render target should not be re-created mid-draw" (target.rs line 234). -/
  | doubleDraw
  /-- Failure of the expect call in recreate_if_needed (target.rs line 213). -/
  | createFailed
  /-- Message "Unexpected error in Direct2D EndDraw()" (target.rs line 111). -/
  | endDrawUnexpected
  /-- Message "Render target cannot transition from Drawing to Created" (target.rs line 246). -/
  | drawingToCreated
  /-- An unreachable arm in target.rs (lines 200, 236, 256). -/
  | unreachableState
  /-- Failure of the expect call in make_solid_color_brush (target.rs line 147). -/
  | brushCreateFailed
  /-- Failure of the assertion "Window handle was NULL" (inner.rs line 171). -/
  | nullHandle
  /-- An unwrap of a failed checked OS call (inner.rs lines 198, 259, 290, 291). -/
  | osCallFailed
deriving DecidableEq, Repr

namespace D2D

/-- Pixel size of the drawing surface; models win_geom Size2D of i32. -/
structure Size2D where
  width : Int
  height : Int
deriving DecidableEq, Repr

/-- Components common to all non-poisoned states (target.rs, struct Inner):
the owning factory reference, the target window handle and the fixed surface
size. The factory is an opaque reference-counted OS wrapper, modelled by a
numeric identifier; the window handle is the isize payload of HWND. -/
structure Inner where
  factory : Nat
  hwnd : Int
  size : Size2D
deriving DecidableEq, Repr

/-- The render-target state pattern (target.rs, enum State). A device render
target (ID2D1HwndRenderTarget) is opaque and modelled by a numeric id. -/
inductive State
  /-- Device-specific resources have been created and are usable. -/
  | Created (inner : Inner) (target : Nat)
  /-- The target is currently inside a BeginDraw call. -/
  | Drawing (inner : Inner) (target : Nat)
  /-- Device-specific resources require (re-)creation. -/
  | RequiresRecreation (inner : Inner)
  /-- An error occurred mid-transition; the value is no longer usable. -/
  | Poisoned
deriving DecidableEq, Repr

/-- Models State::recreate_if_needed (target.rs lines 206 to 222). The factory
call make_device_render_target is consumed from the oracle factoryResult:
some t models an Ok result carrying the freshly created device target t, none
models an Err, on which the expect call panics. -/
def State.recreate_if_needed (s : State) (factoryResult : Option Nat) :
    Except Panic State :=
  match s with
  | .Poisoned => .error .poisoned
  | .RequiresRecreation inner =>
    match factoryResult with
    | some t => .ok (.Created inner t)
    | none => .error .createFailed
  | .Created inner t => .ok (.Created inner t)
  | .Drawing inner t => .ok (.Drawing inner t)

/-- Models State::device_target (target.rs lines 195 to 202): the state is
swapped for Poisoned, recreated if needed, written back, and the device
target is cloned out. The result is the written-back state together with the
cloned device-target id. -/
def State.device_target (s : State) (factoryResult : Option Nat) :
    Except Panic (State × Nat) :=
  match s.recreate_if_needed factoryResult with
  | .error p => .error p
  | .ok s' =>
    match s' with
    | .Poisoned => .error .poisoned
    | .Created inner t => .ok (.Created inner t, t)
    | .Drawing inner t => .ok (.Drawing inner t, t)
    | .RequiresRecreation _ => .error .unreachableState

/-- Models State::begin_draw (target.rs lines 231 to 238): recreate if needed,
then transition Created to Drawing; panic on Poisoned or an already-Drawing
state. -/
def State.begin_draw (s : State) (factoryResult : Option Nat) :
    Except Panic State :=
  match s.recreate_if_needed factoryResult with
  | .error p => .error p
  | .ok s' =>
    match s' with
    | .Poisoned => .error .poisoned
    | .Drawing _ _ => .error .doubleDraw
    | .Created inner t => .ok (.Drawing inner t)
    | .RequiresRecreation _ => .error .unreachableState

/-- Models State::end_draw (target.rs lines 242 to 258): recreate if needed,
then transition Drawing to RequiresRecreation when must_recreate holds and to
Created otherwise; panic on Poisoned or a Created state. -/
def State.end_draw (s : State) (must_recreate : Bool) (factoryResult : Option Nat) :
    Except Panic State :=
  match s.recreate_if_needed factoryResult with
  | .error p => .error p
  | .ok s' =>
    match s' with
    | .Poisoned => .error .poisoned
    | .Created _ _ => .error .drawingToCreated
    | .Drawing inner t =>
      if must_recreate then .ok (.RequiresRecreation inner)
      else .ok (.Created inner t)
    | .RequiresRecreation _ => .error .unreachableState

/-- The outcome of the platform EndDraw call as observed through check_res
(target.rs lines 108 to 113), supplied by the environment. -/
inductive EndDrawResult
  /-- EndDraw returned Ok. -/
  | success
  /-- EndDraw returned an error whose code is D2DERR_RECREATE_TARGET. -/
  | recreateTarget
  /-- EndDraw returned an error with any other code. -/
  | otherError
deriving DecidableEq, Repr

/-- The match on the checked EndDraw result (target.rs lines 108 to 113):
an Ok result yields false, the recreate-required code yields true, and any
other error panics. -/
def EndDrawResult.mustRecreate : EndDrawResult → Except Panic Bool
  | .success => .ok false
  | .recreateTarget => .ok true
  | .otherError => .error .endDrawUnexpected

/-- A render target bound to one window (target.rs, struct RenderTarget):
the state-pattern object plus the resource generation counter. -/
structure RenderTarget where
  state : State
  generation : Nat
deriving DecidableEq, Repr

/-- Models RenderTarget::new (target.rs lines 70 to 81): fresh targets start
in RequiresRecreation with generation 0. -/
def RenderTarget.new (factory : Nat) (hwnd : Int) (size : Size2D) : RenderTarget :=
  { state := .RequiresRecreation ⟨factory, hwnd, size⟩, generation := 0 }

/-- Models RenderTarget::begin_draw (target.rs lines 93 to 102): drive the
state machine with State::begin_draw, then read the device target back out
with State::device_target and hand it to the new drawing Context. The result
carries the updated render target and the device-target id given to the
Context. The platform BeginDraw call itself has no observable result. -/
def RenderTarget.begin_draw (rt : RenderTarget) (factoryResult : Option Nat) :
    Except Panic (RenderTarget × Nat) :=
  match rt.state.begin_draw factoryResult with
  | .error p => .error p
  | .ok s1 =>
    match s1.device_target factoryResult with
    | .error p => .error p
    | .ok (s2, t) => .ok ({ rt with state := s2 }, t)

/-- Models RenderTarget::end_draw (target.rs lines 107 to 119): first the
checked platform EndDraw call (panicking on an unexpected error), then the
generation bump when recreation is required, then the state transition. -/
def RenderTarget.end_draw (rt : RenderTarget) (res : EndDrawResult)
    (factoryResult : Option Nat) : Except Panic RenderTarget :=
  match res.mustRecreate with
  | .error p => .error p
  | .ok mr =>
    let g := if mr then rt.generation + 1 else rt.generation
    match rt.state.end_draw mr factoryResult with
    | .error p => .error p
    | .ok s => .ok { state := s, generation := g }

/-- A solid color brush (modelled from brushes::SolidColorBrush as constructed
in target.rs line 149): the logical color, the opaque device brush handle, and
the generation stamped at creation time. The color value is opaque here. -/
structure SolidColorBrush where
  color : Nat
  device_brush : Nat
  generation : Nat
deriving DecidableEq, Repr

/-- Models RenderTarget::make_solid_color_brush (target.rs lines 134 to 150):
obtain the device target (recreating if needed), issue the checked
CreateSolidColorBrush call (oracle brushResult; none models a failed call, on
which the expect panics), and stamp the brush with the current generation. -/
def RenderTarget.make_solid_color_brush (rt : RenderTarget) (color : Nat)
    (factoryResult : Option Nat) (brushResult : Option Nat) :
    Except Panic (RenderTarget × SolidColorBrush) :=
  match rt.state.device_target factoryResult with
  | .error p => .error p
  | .ok (s, _t) =>
    match brushResult with
    | none => .error .brushCreateFailed
    | some b => .ok ({ rt with state := s }, ⟨color, b, rt.generation⟩)

/-- One externally driveable operation on a render target, bundling the
platform oracles consumed during that operation. The endDraw operation models
Context::end_draw calling back into RenderTarget::end_draw. -/
inductive Op
  | beginDraw (factoryResult : Option Nat)
  | endDraw (res : EndDrawResult) (factoryResult : Option Nat)
  | makeBrush (color : Nat) (factoryResult : Option Nat) (brushResult : Option Nat)
deriving DecidableEq, Repr

/-- Run one operation, keeping only the render-target state. -/
def RenderTarget.stepOp (rt : RenderTarget) : Op → Except Panic RenderTarget
  | .beginDraw fr =>
    match rt.begin_draw fr with
    | .error p => .error p
    | .ok (rt', _t) => .ok rt'
  | .endDraw res fr => rt.end_draw res fr
  | .makeBrush c fr br =>
    match rt.make_solid_color_brush c fr br with
    | .error p => .error p
    | .ok (rt', _b) => .ok rt'

/-- Run a sequence of operations; a panic aborts the run. -/
def RenderTarget.run (rt : RenderTarget) : List Op → Except Panic RenderTarget
  | [] => .ok rt
  | op :: ops =>
    match rt.stepOp op with
    | .error p => .error p
    | .ok rt' => rt'.run ops

end D2D

namespace Win32

/-- The window theme (window::Theme). -/
inductive Theme
  | darkMode
  | lightMode
deriving DecidableEq, Repr

/-- Win32 message constant WM_PAINT (0x000F). -/
def WM_PAINT : Nat := 15

/-- Win32 message constant WM_CLOSE (0x0010). -/
def WM_CLOSE : Nat := 16

/-- Win32 message constant WM_NCCREATE (0x0081). -/
def WM_NCCREATE : Nat := 129

/-- Win32 message constant WM_NCDESTROY (0x0082). -/
def WM_NCDESTROY : Nat := 130

/-- The fields of WindowInner (inner.rs lines 44 to 70) relevant to its
observable behavior: the Win32 handle (isize payload of HWND; 0 means the
window was destroyed on the Win32 side), the theme, and the two edge-triggered
request flags. The title, window class, keyboard state and the PhantomData
marker are external-collaborator or marker details with no bearing on these
operations. -/
structure WindowInner where
  hwnd : Int
  theme : Theme
  close_request : Bool
  redraw_request : Bool
deriving DecidableEq, Repr

/-- Models the field initialization in WindowInner::new (inner.rs lines 82 to
92) together with the handle assignment at line 116: close_request starts
false, redraw_request starts true (the source comment reads: request immediate
draw). -/
def WindowInner.new (hwnd : Int) (theme : Theme) : WindowInner :=
  { hwnd := hwnd, theme := theme, close_request := false, redraw_request := true }

/-- Models the WindowInner::hwnd accessor (inner.rs lines 169 to 173): reads
the handle cell and asserts it is not NULL, panicking otherwise. -/
def WindowInner.hwndChecked (w : WindowInner) : Except Panic Int :=
  if w.hwnd = 0 then .error .nullHandle else .ok w.hwnd

/-- Models WindowInner::clear_close_request (inner.rs lines 204 to 206):
an atomic swap with false, returning the previous value. -/
def WindowInner.clear_close_request (w : WindowInner) : Bool × WindowInner :=
  (w.close_request, { w with close_request := false })

/-- Models WindowInner::clear_redraw_request (inner.rs lines 212 to 214):
an atomic swap with false, returning the previous value. -/
def WindowInner.clear_redraw_request (w : WindowInner) : Bool × WindowInner :=
  (w.redraw_request, { w with redraw_request := false })

/-- Models WindowInner::set_theme (inner.rs lines 182 to 199): the theme cell
is set first, then the checked DwmSetWindowAttribute call receives the handle
read through the asserting accessor; a failed call is unwrapped into a panic
(oracle dwmOk). The Int in the result is the handle value passed to the OS
call. -/
def WindowInner.set_theme (w : WindowInner) (theme : Theme) (dwmOk : Bool) :
    Except Panic (WindowInner × Int) :=
  let w' := { w with theme := theme }
  match w'.hwndChecked with
  | .error p => .error p
  | .ok h => if dwmOk then .ok (w', h) else .error .osCallFailed

/-- Models WindowInner::destroy (inner.rs lines 220 to 223): the checked
DestroyWindow call receives the handle read through the asserting accessor.
A failed OS call (oracle osOk false) is propagated as a typed error, not a
panic; the Bool in the result records whether the call succeeded and the Int
is the handle value passed to the OS call. -/
def WindowInner.destroy (w : WindowInner) (osOk : Bool) :
    Except Panic (Bool × Int) :=
  match w.hwndChecked with
  | .error p => .error p
  | .ok h => .ok (osOk, h)

/-- Models WindowInner::handle_message (inner.rs lines 233 to 270). The slot
argument is the current content of the window's GWLP_USERDATA slot. Oracle
kbdHandles models KbdAdapter::handles_msg for this message (an external input
adapter; keyboard state changes are not observable here); oracle clearFail
models failure of the checked SetWindowLongPtrW clearing call in the
WM_NCDESTROY arm, which is unwrapped into a panic. The result is the
handled-flag returned to the window procedure, the updated window object and
the updated slot content. -/
def WindowInner.handle_message (w : WindowInner) (slot : Int) (umsg : Nat)
    (kbdHandles : Bool) (clearFail : Bool) :
    Except Panic (Bool × WindowInner × Int) :=
  if kbdHandles then .ok (true, w, slot)
  else if umsg = WM_PAINT then .ok (false, { w with redraw_request := true }, slot)
  else if umsg = WM_CLOSE then .ok (true, { w with close_request := true }, slot)
  else if umsg = WM_NCDESTROY then
    match w.hwndChecked with
    | .error p => .error p
    | .ok _h =>
      if clearFail then .error .osCallFailed
      else .ok (false, { w with hwnd := 0 }, 0)
  else .ok (false, w, slot)

/-- How a window-procedure invocation concluded. -/
inductive ProcResult
  /-- Returned LRESULT(0) without calling DefWindowProcW: message consumed. -/
  | consumed
  /-- Fell through to DefWindowProcW: message forwarded. -/
  | forwarded
deriving DecidableEq, Repr

/-- Models WindowInner::wnd_proc_setup (inner.rs lines 275 to 297). On
WM_NCCREATE the object pointer from lpCreateParams is written into the
GWLP_USERDATA slot and the steady-state procedure is installed in the
GWLP_WNDPROC slot; each checked SetWindowLongPtrW call is unwrapped into a
panic on failure (oracles setUserFail and setProcFail). Every message is then
forwarded to DefWindowProcW. The Int in the result is the new GWLP_USERDATA
slot content. -/
def wnd_proc_setup (slot : Int) (umsg : Nat) (lpCreateParams : Int)
    (setUserFail : Bool) (setProcFail : Bool) :
    Except Panic (ProcResult × Int) :=
  if umsg = WM_NCCREATE then
    if setUserFail then .error .osCallFailed
    else if setProcFail then .error .osCallFailed
    else .ok (.forwarded, lpCreateParams)
  else .ok (.forwarded, slot)

/-- Models WindowInner::wnd_proc_thunk (inner.rs lines 301 to 320). The
GetWindowLongPtrW read of the GWLP_USERDATA slot is checked with the
nonzero_isize mapping (check.rs): it fails exactly when the value is 0. On a
failed read the message is forwarded to DefWindowProcW with no dispatch; on a
successful read the message is dispatched to the pointed-to object (argument
w models the pointee) under a temporary strong-reference bump, and a true
handled-flag returns LRESULT(0) while a false one falls through to
DefWindowProcW. -/
def wnd_proc_thunk (w : WindowInner) (slot : Int) (umsg : Nat)
    (kbdHandles : Bool) (clearFail : Bool) :
    Except Panic (ProcResult × WindowInner × Int) :=
  if slot = 0 then .ok (.forwarded, w, slot)
  else
    match w.handle_message slot umsg kbdHandles clearFail with
    | .error p => .error p
    | .ok (consumed, w', slot') =>
      .ok (if consumed then .consumed else .forwarded, w', slot')

end Win32

namespace D2D

/-- A successful recreate_if_needed always lands in Created or Drawing. -/
theorem recreate_ok_shape (s : State) (fr : Option Nat) (s' : State)
    (h : s.recreate_if_needed fr = .ok s') :
    (∃ i t, s' = .Created i t) ∨ (∃ i t, s' = .Drawing i t) := by
  cases s <;> cases fr <;>
    simp_all [State.recreate_if_needed] <;>
    simp [h.symm]

/-- A successful RenderTarget begin_draw lands in Drawing on the returned
device target, with the generation untouched. -/
theorem begin_draw_ok_shape (rt rt1 : RenderTarget) (fr : Option Nat) (t : Nat)
    (h : rt.begin_draw fr = .ok (rt1, t)) :
    ∃ i, rt1 = ⟨.Drawing i t, rt.generation⟩ := by
  obtain ⟨s, g⟩ := rt
  cases s <;> cases fr <;>
    simp_all [RenderTarget.begin_draw, State.begin_draw, State.device_target,
      State.recreate_if_needed] <;>
    simp [h.1.symm, h.2]

/-- A successful RenderTarget end_draw came from Drawing and lands either in
RequiresRecreation with the generation bumped by one (recreate-required
outcome) or in Created with the generation untouched (success outcome). -/
theorem end_draw_ok_shape (rt rt' : RenderTarget) (res : EndDrawResult)
    (fr : Option Nat) (h : rt.end_draw res fr = .ok rt') :
    (res = .recreateTarget ∧ ∃ i,
      rt' = ⟨.RequiresRecreation i, rt.generation + 1⟩)
    ∨ (res = .success ∧ ∃ i t, rt' = ⟨.Created i t, rt.generation⟩) := by
  obtain ⟨s, g⟩ := rt
  cases res <;> cases s <;> cases fr <;>
    simp_all [RenderTarget.end_draw, State.end_draw, State.recreate_if_needed,
      EndDrawResult.mustRecreate] <;>
    simp [h.symm]

/-- A successful make_solid_color_brush keeps the generation, stamps the brush
with that generation, and leaves the state in Created or Drawing. -/
theorem make_brush_ok_shape (rt rt1 : RenderTarget) (c : Nat)
    (fr br : Option Nat) (brush : SolidColorBrush)
    (h : rt.make_solid_color_brush c fr br = .ok (rt1, brush)) :
    rt1.generation = rt.generation ∧ brush.generation = rt.generation
    ∧ ((∃ i t, rt1.state = .Created i t) ∨ (∃ i t, rt1.state = .Drawing i t)) := by
  obtain ⟨s, g⟩ := rt
  cases s <;> cases fr <;> cases br <;>
    simp_all [RenderTarget.make_solid_color_brush, State.device_target,
      State.recreate_if_needed] <;>
    simp [h.1.symm, h.2.symm]

/-- A successfully completed operation never leaves the state Poisoned. -/
theorem stepOp_ok_not_poisoned (rt rt' : RenderTarget) (op : Op)
    (h : rt.stepOp op = .ok rt') : rt'.state ≠ .Poisoned := by
  cases op with
  | beginDraw fr =>
    simp only [RenderTarget.stepOp] at h
    cases hb : rt.begin_draw fr with
    | error p => rw [hb] at h; exact Except.noConfusion h
    | ok pr =>
      rw [hb] at h
      obtain ⟨i, hi⟩ := begin_draw_ok_shape rt pr.1 fr pr.2 (by rw [hb])
      cases h
      rw [hi]
      intro hcontra
      exact State.noConfusion hcontra
  | endDraw res fr =>
    have h' : rt.end_draw res fr = .ok rt' := h
    rcases end_draw_ok_shape rt rt' res fr h' with ⟨_, i, hi⟩ | ⟨_, i, t, hi⟩ <;>
      rw [hi] <;> intro hcontra <;> exact State.noConfusion hcontra
  | makeBrush c fr br =>
    simp only [RenderTarget.stepOp] at h
    cases hb : rt.make_solid_color_brush c fr br with
    | error p => rw [hb] at h; exact Except.noConfusion h
    | ok pr =>
      rw [hb] at h
      obtain ⟨_, _, hshape⟩ :=
        make_brush_ok_shape rt pr.1 c fr br pr.2 (by rw [hb])
      cases h
      rcases hshape with ⟨i, t, hi⟩ | ⟨i, t, hi⟩ <;> rw [hi] <;>
        intro hcontra <;> exact State.noConfusion hcontra

/-- A successfully completed run starting outside Poisoned ends outside
Poisoned. -/
theorem run_ok_not_poisoned (ops : List Op) (rt rt' : RenderTarget)
    (h : rt.run ops = .ok rt') (h0 : rt.state ≠ .Poisoned) :
    rt'.state ≠ .Poisoned := by
  induction ops generalizing rt with
  | nil =>
    simp only [RenderTarget.run] at h
    cases h
    exact h0
  | cons op ops ih =>
    simp only [RenderTarget.run] at h
    cases hs : rt.stepOp op with
    | error p => rw [hs] at h; exact Except.noConfusion h
    | ok rt1 =>
      rw [hs] at h
      exact ih rt1 h (stepOp_ok_not_poisoned rt rt1 op hs)

/-- A single successfully completed operation never decreases the generation. -/
theorem stepOp_generation_mono (rt rt' : RenderTarget) (op : Op)
    (h : rt.stepOp op = .ok rt') : rt.generation ≤ rt'.generation := by
  cases op with
  | beginDraw fr =>
    simp only [RenderTarget.stepOp] at h
    cases hb : rt.begin_draw fr with
    | error p => rw [hb] at h; exact Except.noConfusion h
    | ok pr =>
      rw [hb] at h
      obtain ⟨i, hi⟩ := begin_draw_ok_shape rt pr.1 fr pr.2 (by rw [hb])
      cases h
      rw [hi]
  | endDraw res fr =>
    have h' : rt.end_draw res fr = .ok rt' := h
    rcases end_draw_ok_shape rt rt' res fr h' with ⟨_, i, hi⟩ | ⟨_, i, t, hi⟩ <;>
      simp [hi]
  | makeBrush c fr br =>
    simp only [RenderTarget.stepOp] at h
    cases hb : rt.make_solid_color_brush c fr br with
    | error p => rw [hb] at h; exact Except.noConfusion h
    | ok pr =>
      rw [hb] at h
      obtain ⟨hg, _, _⟩ := make_brush_ok_shape rt pr.1 c fr br pr.2 (by rw [hb])
      cases h
      rw [hg]

/-- A successfully completed run never decreases the generation. -/
theorem run_generation_mono (ops : List Op) (rt rt' : RenderTarget)
    (h : rt.run ops = .ok rt') : rt.generation ≤ rt'.generation := by
  induction ops generalizing rt with
  | nil =>
    simp only [RenderTarget.run] at h
    cases h
    exact Nat.le_refl _
  | cons op ops ih =>
    simp only [RenderTarget.run] at h
    cases hs : rt.stepOp op with
    | error p => rw [hs] at h; exact Except.noConfusion h
    | ok rt1 =>
      rw [hs] at h
      exact Nat.le_trans (stepOp_generation_mono rt rt1 op hs) (ih rt1 h)

/-- An operation started on a Poisoned state never completes. -/
theorem stepOp_poisoned_fails (g : Nat) (op : Op) (rt' : RenderTarget) :
    (⟨.Poisoned, g⟩ : RenderTarget).stepOp op ≠ .ok rt' := by
  cases op with
  | beginDraw fr => intro h; exact Except.noConfusion h
  | endDraw res fr => cases res <;> intro h <;> exact Except.noConfusion h
  | makeBrush c fr br => intro h; exact Except.noConfusion h

/-- Claim C1: an end_draw observing the recreate-required device-loss outcome
leaves the state machine in RequiresRecreation and increments the generation
by exactly 1; an end_draw with a successful platform outcome, a begin_draw
and a make_solid_color_brush all leave the generation unchanged. -/
theorem c1_generation_changes_only_on_device_loss (rt rt' : RenderTarget)
    (fr br : Option Nat) (t c : Nat) (brush : SolidColorBrush) :
    (rt.end_draw .recreateTarget fr = .ok rt' →
      rt'.generation = rt.generation + 1
      ∧ ∃ i, rt'.state = .RequiresRecreation i)
    ∧ (rt.end_draw .success fr = .ok rt' → rt'.generation = rt.generation)
    ∧ (rt.begin_draw fr = .ok (rt', t) → rt'.generation = rt.generation)
    ∧ (rt.make_solid_color_brush c fr br = .ok (rt', brush) →
      rt'.generation = rt.generation) := by
  refine ⟨?_, ?_, ?_, ?_⟩
  · intro h
    rcases end_draw_ok_shape rt rt' _ fr h with ⟨_, i, hi⟩ | ⟨hres, _⟩
    · subst hi
      exact ⟨rfl, i, rfl⟩
    · exact absurd hres (by simp)
  · intro h
    rcases end_draw_ok_shape rt rt' _ fr h with ⟨hres, _⟩ | ⟨_, i, u, hi⟩
    · exact absurd hres (by simp)
    · subst hi
      rfl
  · intro h
    obtain ⟨i, hi⟩ := begin_draw_ok_shape rt rt' fr t h
    subst hi
    rfl
  · intro h
    exact (make_brush_ok_shape rt rt' c fr br brush h).1

/-- Witness for c1_generation_changes_only_on_device_loss at a concrete
render target in the Drawing state observing the recreate-required outcome. -/
theorem c1_generation_witness :
    (⟨.RequiresRecreation ⟨0, 1, ⟨2, 3⟩⟩, 1⟩ : RenderTarget).generation = 0 + 1
    ∧ ∃ i, (⟨.RequiresRecreation ⟨0, 1, ⟨2, 3⟩⟩, 1⟩ : RenderTarget).state
        = State.RequiresRecreation i :=
  (c1_generation_changes_only_on_device_loss
    ⟨.Drawing ⟨0, 1, ⟨2, 3⟩⟩ 5, 0⟩ ⟨.RequiresRecreation ⟨0, 1, ⟨2, 3⟩⟩, 1⟩
    none none 5 7 ⟨7, 9, 0⟩).1 rfl

/-- Claim C2: along any successfully completed operation sequence from a fresh
render target the externally observable state is never Poisoned, and no
operation started on a Poisoned state ever completes (it aborts with a
panic). -/
theorem c2_poisoned_never_observable (f : Nat) (hw : Int) (sz : Size2D)
    (ops : List Op) (rt' : RenderTarget) (g : Nat) (op : Op) :
    ((RenderTarget.new f hw sz).run ops = .ok rt' → rt'.state ≠ .Poisoned)
    ∧ ((⟨.Poisoned, g⟩ : RenderTarget).stepOp op ≠ .ok rt') := by
  constructor
  · intro h
    refine run_ok_not_poisoned ops _ rt' h ?_
    intro hcontra
    exact State.noConfusion hcontra
  · exact stepOp_poisoned_fails g op rt'

/-- Witness for c2_poisoned_never_observable: a concrete two-operation frame
on a fresh render target completes and its final state is not Poisoned. -/
theorem c2_poisoned_witness :
    (⟨.Created ⟨0, 1, ⟨2, 3⟩⟩ 5, 0⟩ : RenderTarget).state ≠ State.Poisoned :=
  (c2_poisoned_never_observable 0 1 ⟨2, 3⟩
    [.beginDraw (some 5), .endDraw .success (some 5)]
    ⟨.Created ⟨0, 1, ⟨2, 3⟩⟩ 5, 0⟩ 0 (.beginDraw none)).1 rfl

/-- Claim C3: a second begin_draw without an intervening end_draw always
aborts with the double-draw contract-violation panic, for every render target
and every prior generation. -/
theorem c3_double_begin_draw_panics (rt rt1 : RenderTarget)
    (fr fr2 : Option Nat) (t : Nat) (hb : rt.begin_draw fr = .ok (rt1, t)) :
    rt1.begin_draw fr2 = .error .doubleDraw := by
  obtain ⟨i, hi⟩ := begin_draw_ok_shape rt rt1 fr t hb
  subst hi
  rfl

/-- Witness for c3_double_begin_draw_panics at a concrete render target in
the Created state. -/
theorem c3_double_begin_draw_witness :
    (⟨.Drawing ⟨0, 1, ⟨2, 3⟩⟩ 5, 4⟩ : RenderTarget).begin_draw none
      = .error Panic.doubleDraw :=
  c3_double_begin_draw_panics ⟨.Created ⟨0, 1, ⟨2, 3⟩⟩ 5, 4⟩
    ⟨.Drawing ⟨0, 1, ⟨2, 3⟩⟩ 5, 4⟩ none none 5 rfl

/-- Claim C4: from the RequiresRecreation state, one begin_draw call with a
successful factory re-creation rebuilds the device target and ends in the
Drawing state carrying the freshly created device target, with the generation
unchanged; the drawing context receives that device target. -/
theorem c4_begin_draw_recreates_in_one_call (i : Inner) (g t : Nat) :
    RenderTarget.begin_draw ⟨.RequiresRecreation i, g⟩ (some t)
      = .ok (⟨.Drawing i t, g⟩, t) := rfl

/-- Claim C5: a fresh render target has generation 0; make_solid_color_brush
stamps the brush with the creating target's current generation and changes
nothing else about the generation; completed runs never decrease the
generation; and a brush created before a recreate-required end_draw carries a
generation strictly below the generation after that device loss. -/
theorem c5_brush_generation_stamping (rt rt1 rt2 rt3 : RenderTarget)
    (c : Nat) (fr br fr2 : Option Nat) (brush : SolidColorBrush)
    (ops : List Op) (f : Nat) (hw : Int) (sz : Size2D) :
    ((RenderTarget.new f hw sz).generation = 0)
    ∧ (rt.make_solid_color_brush c fr br = .ok (rt1, brush) →
        brush.generation = rt.generation ∧ rt1.generation = rt.generation)
    ∧ (rt.run ops = .ok rt2 → rt.generation ≤ rt2.generation)
    ∧ (rt.make_solid_color_brush c fr br = .ok (rt1, brush) →
        rt1.run ops = .ok rt2 →
        rt2.end_draw .recreateTarget fr2 = .ok rt3 →
        brush.generation < rt3.generation) := by
  refine ⟨rfl, ?_, ?_, ?_⟩
  · intro h
    obtain ⟨h1, h2, _⟩ := make_brush_ok_shape rt rt1 c fr br brush h
    exact ⟨h2, h1⟩
  · intro h
    exact run_generation_mono ops rt rt2 h
  · intro hmk hrun hend
    obtain ⟨h1, h2, _⟩ := make_brush_ok_shape rt rt1 c fr br brush hmk
    have hmono : rt1.generation ≤ rt2.generation :=
      run_generation_mono ops rt1 rt2 hrun
    rcases end_draw_ok_shape rt2 rt3 _ fr2 hend with ⟨_, i, hi⟩ | ⟨hres, _⟩
    · subst hi
      calc brush.generation = rt1.generation := by rw [h2, h1]
        _ ≤ rt2.generation := hmono
        _ < rt2.generation + 1 := Nat.lt_succ_self _
    · exact absurd hres (by simp)

/-- Witness for c5_brush_generation_stamping: a brush made at generation 0
is strictly below the generation after a concrete device loss. -/
theorem c5_brush_generation_witness :
    (⟨7, 9, 0⟩ : SolidColorBrush).generation
      < (⟨.RequiresRecreation ⟨0, 1, ⟨2, 3⟩⟩, 1⟩ : RenderTarget).generation :=
  (c5_brush_generation_stamping
    ⟨.Drawing ⟨0, 1, ⟨2, 3⟩⟩ 5, 0⟩ ⟨.Drawing ⟨0, 1, ⟨2, 3⟩⟩ 5, 0⟩
    ⟨.Drawing ⟨0, 1, ⟨2, 3⟩⟩ 5, 0⟩ ⟨.RequiresRecreation ⟨0, 1, ⟨2, 3⟩⟩, 1⟩
    7 none (some 9) none ⟨7, 9, 0⟩ [] 0 1 ⟨2, 3⟩).2.2.2 rfl rfl rfl

/-- Claim C6: a fresh render target driven through one begin_draw and one
end_draw with a successful platform outcome ends in the Created state with
the generation still 0. -/
theorem c6_clean_frame_ends_created (f : Nat) (hw : Int) (sz : Size2D)
    (t : Nat) :
    (RenderTarget.new f hw sz).run
        [.beginDraw (some t), .endDraw .success (some t)]
      = .ok ⟨.Created ⟨f, hw, sz⟩ t, 0⟩ := rfl

end D2D

namespace Win32

/-- Claim C7, counterexample: the steady-state window procedure observing a
failed read of the user-data slot (the nonzero_isize check fails because the
slot holds 0) does NOT abort; it completes normally and forwards the message
to the default window procedure. This refutes the claim that any failure to
read or write the user-data slot is fatal. -/
theorem c7_read_failure_not_fatal_counterexample :
    wnd_proc_thunk (WindowInner.new 42 .darkMode) 0 WM_PAINT false false
      = .ok (.forwarded, WindowInner.new 42 .darkMode, 0) := rfl

/-- Claim C7, amended: failures to WRITE the user-data slot are fatal (the
setup routine panics when either installation write fails, and the
destroy-notification handler panics when the clearing write fails), but a
failed READ of the slot in the steady-state routine is tolerated: dispatch is
skipped and the message is forwarded to the default window procedure. -/
theorem c7_userdata_failure_semantics (slot lp : Int) (pf : Bool)
    (w : WindowInner) (umsg : Nat) (kbd cf : Bool) :
    (wnd_proc_setup slot WM_NCCREATE lp true pf = .error .osCallFailed)
    ∧ (wnd_proc_setup slot WM_NCCREATE lp false true = .error .osCallFailed)
    ∧ (w.hwnd ≠ 0 →
        w.handle_message slot WM_NCDESTROY false true = .error .osCallFailed)
    ∧ (wnd_proc_thunk w 0 umsg kbd cf = .ok (.forwarded, w, 0)) := by
  refine ⟨rfl, rfl, ?_, rfl⟩
  intro hz
  simp [WindowInner.handle_message, WindowInner.hwndChecked, hz,
    WM_NCDESTROY, WM_PAINT, WM_CLOSE]

/-- Witness for c7_userdata_failure_semantics: on a live concrete window the
destroy-notification handler aborts when the slot-clearing write fails. -/
theorem c7_userdata_failure_witness :
    (WindowInner.new 42 .darkMode).handle_message 7 WM_NCDESTROY false true
      = .error Panic.osCallFailed :=
  (c7_userdata_failure_semantics 7 0 false (WindowInner.new 42 .darkMode)
    0 false false).2.2.1 (by decide)

/-- Claim C8: a window-close notification sets the close-request flag and is
consumed (not forwarded); the first clear_close_request afterwards returns
true leaving the flag cleared, an immediately following call returns false,
and every call on a window whose flag is clear returns false and changes
nothing. -/
theorem c8_close_flag_edge_triggered (w w2 : WindowInner) (slot : Int)
    (cf : Bool) :
    (w.handle_message slot WM_CLOSE false cf
        = .ok (true, { w with close_request := true }, slot))
    ∧ (({ w with close_request := true } : WindowInner).clear_close_request
        = (true, { w with close_request := false }))
    ∧ ((({ w with close_request := true } :
          WindowInner).clear_close_request.2).clear_close_request.1 = false)
    ∧ (w2.close_request = false → w2.clear_close_request = (false, w2)) := by
  refine ⟨rfl, rfl, rfl, ?_⟩
  intro hz
  cases w2
  simp_all [WindowInner.clear_close_request]

/-- Witness for c8_close_flag_edge_triggered: clearing the close request of a
concrete window whose flag is already clear returns false and is identity. -/
theorem c8_close_flag_witness :
    (WindowInner.new 42 Theme.darkMode).clear_close_request
      = (false, WindowInner.new 42 Theme.darkMode) :=
  (c8_close_flag_edge_triggered (WindowInner.new 42 .darkMode)
    (WindowInner.new 42 .darkMode) 0 false).2.2.2 rfl

/-- Claim C9: a freshly created window starts with the redraw-request flag
already set, so the first clear_redraw_request returns true with no paint
notification ever delivered, and an immediately following call returns
false. -/
theorem c9_fresh_window_redraw_preset (hw : Int) (th : Theme) :
    ((WindowInner.new hw th).clear_redraw_request.1 = true)
    ∧ (((WindowInner.new hw th).clear_redraw_request.2).clear_redraw_request.1
        = false) :=
  ⟨rfl, rfl⟩

/-- Claim C10: the hwnd accessor, set_theme and destroy all read the handle
through the asserting accessor: on a destroyed window (handle 0) each aborts
with the null-handle assertion before any OS call, and whenever one of them
completes, the handle value it passed to the OS call is the stored handle and
is non-null. -/
theorem c10_null_handle_asserted (w : WindowInner) (th : Theme)
    (dwmOk osOk oks : Bool) (h : Int) (w' : WindowInner) :
    (w.hwnd = 0 →
      w.hwndChecked = .error .nullHandle
      ∧ w.set_theme th dwmOk = .error .nullHandle
      ∧ w.destroy osOk = .error .nullHandle)
    ∧ (w.hwndChecked = .ok h → h = w.hwnd ∧ h ≠ 0)
    ∧ (w.set_theme th dwmOk = .ok (w', h) → h = w.hwnd ∧ h ≠ 0)
    ∧ (w.destroy osOk = .ok (oks, h) → h = w.hwnd ∧ h ≠ 0) := by
  by_cases hz : w.hwnd = 0 <;>
    cases dwmOk <;>
    simp_all [WindowInner.hwndChecked, WindowInner.set_theme,
      WindowInner.destroy]
  all_goals constructorm* _ ∧ _
  all_goals intros
  all_goals omega

/-- Witness for c10_null_handle_asserted: every handle-using operation on a
concrete destroyed window aborts with the null-handle assertion. -/
theorem c10_null_handle_witness :
    (⟨0, .darkMode, false, false⟩ : WindowInner).hwndChecked
        = .error Panic.nullHandle
    ∧ (⟨0, .darkMode, false, false⟩ : WindowInner).set_theme .lightMode true
        = .error Panic.nullHandle
    ∧ (⟨0, .darkMode, false, false⟩ : WindowInner).destroy true
        = .error Panic.nullHandle :=
  (c10_null_handle_asserted ⟨0, .darkMode, false, false⟩ .lightMode
    true true true 3 ⟨0, .darkMode, false, false⟩).1 rfl

end Win32
